import Mathlib

/-!
# Customer-service studio front-end: conversation and request model

A shallow embedding of the two React views of the front-end,
`frontend/src/components/Chatbot.jsx` and
`frontend/src/components/AgentCopilot.jsx`.

* A component's `useState` cells become the fields of a state record.
* An `async` handler is split at its `await`: the part that runs
  synchronously inside the event (`handleSend`, `handleSuggestReply`,
  `handleSummarize`) returns the next state together with the list of
  outbound requests it issues, and the part that runs once the `fetch`
  has settled (`handleSendResume`, ...) maps the state of that moment and
  the outcome of the call to the next state.  Every setter used after the
  `await` either stores a constant or is a functional update
  (`setMessages((prev) => ...)`), so the continuation depends on the
  current state and the outcome only.
* `disabled` attributes of buttons are modelled by the `click...` functions:
  a disabled button does not run its `onClick` handler.
* The continuation of `handleSummarize` is also given call by call
  (`handleSummarizeSetters`); which of the states in between are rendered
  is decided by React, so it is a parameter (`rendered`).
* Strings are sequences of Unicode scalar values; every character removed
  by `String.prototype.trim` lies in the Basic Multilingual Plane, so
  trimming scalar values agrees with trimming UTF-16 code units.
* Response fields are read at the types of the backend contract: a field
  is either absent (`undefined` or `null`, which `??` replaces by the
  default) or a value of its wire type.
-/

namespace Studio

/-! ## JavaScript primitives used by the handlers -/

/-- White space and line terminators of ECMAScript, the characters that
`String.prototype.trim` strips. -/
def isWhiteSpace (c : Char) : Bool :=
  let n := c.toNat
  n == 0x09 || n == 0x0A || n == 0x0B || n == 0x0C || n == 0x0D || n == 0x20 ||
  n == 0xA0 || n == 0x1680 || (0x2000 ≤ n && n ≤ 0x200A) || n == 0x2028 ||
  n == 0x2029 || n == 0x202F || n == 0x205F || n == 0x3000 || n == 0xFEFF

/-- Strip leading white space from a character sequence. -/
def trimStart (cs : List Char) : List Char :=
  cs.dropWhile isWhiteSpace

/-- Strip trailing white space from a character sequence. -/
def trimEnd (cs : List Char) : List Char :=
  (cs.reverse.dropWhile isWhiteSpace).reverse

/-- The method `String.prototype.trim`. -/
def trim (s : String) : String :=
  ⟨trimEnd (trimStart s.data)⟩

/-- Truthiness test `!s` on a string: only the empty string is falsy. -/
def falsy (s : String) : Bool :=
  decide (s = "")

/-- The expression `s || null` on a string. -/
def orNull (s : String) : Option String :=
  if falsy s then none else some s

/-! ## Data model -/

/-- The `role` tag of a message: `'user'` or `'assistant'`. -/
inductive Role
  | user
  | assistant
  deriving DecidableEq, Repr

/-- One turn of a conversation, `{ role, content }`. -/
structure Message where
  role : Role
  content : String
  deriving DecidableEq, Repr

/-- The JSON body of an outbound call, one constructor per endpoint. -/
inductive Payload
  | chatbotQuery (query : String) (history : List Message)
  | suggestReply (customer_message : String) (conversation_history : List Message)
      (topic_hint : Option String)
  | summarizeCase (conversation : List Message)
  deriving DecidableEq, Repr

/-- One call of `fetch`: method, path below `API_BASE_URL`, JSON body. -/
structure Request where
  method : String
  path : String
  body : Payload
  deriving DecidableEq, Repr

/-- The result of `await res.json()`. -/
inductive Parsed (β : Type)
  /-- The body is not JSON: `res.json()` rejects. -/
  | malformed
  /-- The body is the JSON value `null`: reading a property of it throws. -/
  | null
  /-- Any other JSON value, seen through the properties the handler reads. -/
  | value (data : β)
  deriving DecidableEq, Repr

/-- How an outbound call settles. -/
inductive FetchOutcome (β : Type)
  /-- The promise of `fetch` rejects (network unreachable, DNS, ...). -/
  | networkError
  /-- A response arrived, with its HTTP status and its body. -/
  | response (status : Nat) (body : Parsed β)
  deriving DecidableEq, Repr

/-- The flag `res.ok`: the status is in the range 200 to 299. -/
def ok (status : Nat) : Bool :=
  200 ≤ status && status ≤ 299

/-- The value of `data` when the `try` block gets past
`await fetch`, the `res.ok` test, `await res.json()` and the first property
read; `none` when any of them throws and control goes to `catch`. -/
def FetchOutcome.data {β : Type} : FetchOutcome β → Option β
  | .networkError => none
  | .response status body =>
    if ok status then
      match body with
      | .value d => some d
      | .malformed => none
      | .null => none
    else none

/-- The properties of the `/chatbot/query` response that are read. -/
structure ChatData where
  reply : Option String
  deriving DecidableEq, Repr

/-- The properties of the `/copilot/suggest-reply` response that are read. -/
structure SuggestData where
  suggested_reply : Option String
  deriving DecidableEq, Repr

/-- The properties of the `/copilot/summarize-case` response that are read. -/
structure SummaryData where
  summary : Option String
  key_points : Option (List String)
  deriving DecidableEq, Repr

/-! ## Chatbot.jsx -/

/-- The state cells of the `Chatbot` component. -/
structure ChatState where
  messages : List Message
  input : String
  loading : Bool
  error : String
  deriving DecidableEq, Repr

/-- The initial values passed to `useState` in `Chatbot`. -/
def ChatState.initial : ChatState :=
  { messages := [], input := "", loading := false, error := "" }

/-- The message shown by `Chatbot` when a call fails. -/
def chatErrorMessage : String :=
  "Something went wrong talking to the chatbot. Please try again."

/-- The synchronous part of `handleSend`, up to the `await fetch`. -/
def handleSend (s : ChatState) : ChatState × List Request :=
  let trimmed := trim s.input
  if falsy trimmed || s.loading then (s, [])
  else
    let newUserMessage : Message := { role := .user, content := trimmed }
    ({ messages := s.messages ++ [newUserMessage], input := "", error := "", loading := true },
     [{ method := "POST", path := "/chatbot/query",
        body := .chatbotQuery trimmed s.messages }])

/-- The part of `handleSend` after the `await`: the rest of the `try`
block or the `catch` block, then `finally`. -/
def handleSendResume (s : ChatState) (o : FetchOutcome ChatData) : ChatState :=
  let s1 : ChatState :=
    match o.data with
    | some data =>
      let botMessage : Message := { role := .assistant, content := data.reply.getD "" }
      { s with messages := s.messages ++ [botMessage] }
    | none => { s with error := chatErrorMessage }
  { s1 with loading := false }

/-- The handler `handleKeyDown` of the text area. -/
def handleKeyDown (s : ChatState) (key : String) (shiftKey : Bool) : ChatState × List Request :=
  if key = "Enter" && !shiftKey then handleSend s else (s, [])

/-- The `disabled` attribute of the send button. -/
def sendDisabled (s : ChatState) : Bool :=
  s.loading || falsy (trim s.input)

/-- A click on the send button. -/
def clickSend (s : ChatState) : ChatState × List Request :=
  if sendDisabled s then (s, []) else handleSend s

/-! ## AgentCopilot.jsx -/

/-- The constant `defaultConversation`, the seed of the copilot view. -/
def defaultConversation : List Message :=
  [ { role := .user,
      content := "Hi, I ordered headphones last week and they still have not arrived." },
    { role := .assistant,
      content := "I am sorry to hear that. Can you please share your order number?" },
    { role := .user,
      content := "The order number is #12345, and the tracking has not updated for 5 days." } ]

/-- The state cells of the `AgentCopilot` component. -/
structure CopilotState where
  conversation : List Message
  latestCustomerMessage : String
  topicHint : String
  suggestedReply : String
  summary : String
  keyPoints : List String
  loadingSuggest : Bool
  loadingSummary : Bool
  error : String
  deriving DecidableEq, Repr

/-- The initial values passed to `useState` in `AgentCopilot`. -/
def CopilotState.initial : CopilotState :=
  { conversation := defaultConversation,
    latestCustomerMessage :=
      "My order was supposed to arrive yesterday with express shipping but the tracking has not updated. Can you help?",
    topicHint := "orders",
    suggestedReply := "",
    summary := "",
    keyPoints := [],
    loadingSuggest := false,
    loadingSummary := false,
    error := "" }

/-- The message shown when a suggest-reply call fails. -/
def suggestErrorMessage : String :=
  "Failed to generate a suggested reply. Please try again."

/-- The message shown when a summarize call fails. -/
def summarizeErrorMessage : String :=
  "Failed to summarize the case. Please try again."

/-- The synchronous part of `handleSuggestReply`, up to the `await fetch`. -/
def handleSuggestReply (s : CopilotState) : CopilotState × List Request :=
  if falsy (trim s.latestCustomerMessage) then (s, [])
  else
    ({ s with loadingSuggest := true, error := "", suggestedReply := "" },
     [{ method := "POST", path := "/copilot/suggest-reply",
        body := .suggestReply (trim s.latestCustomerMessage) s.conversation
                  (orNull s.topicHint) }])

/-- The part of `handleSuggestReply` after the `await`. -/
def handleSuggestReplyResume (s : CopilotState) (o : FetchOutcome SuggestData) :
    CopilotState :=
  let s1 : CopilotState :=
    match o.data with
    | some data => { s with suggestedReply := data.suggested_reply.getD "" }
    | none => { s with error := suggestErrorMessage }
  { s1 with loadingSuggest := false }

/-- The synchronous part of `handleSummarize`, up to the `await fetch`. -/
def handleSummarize (s : CopilotState) : CopilotState × List Request :=
  ({ s with loadingSummary := true, error := "", summary := "", keyPoints := [] },
   [{ method := "POST", path := "/copilot/summarize-case",
      body := .summarizeCase s.conversation }])

/-- The part of `handleSummarize` after the `await`. -/
def handleSummarizeResume (s : CopilotState) (o : FetchOutcome SummaryData) :
    CopilotState :=
  let s1 : CopilotState :=
    match o.data with
    | some data =>
      { s with summary := data.summary.getD "", keyPoints := data.key_points.getD [] }
    | none => { s with error := summarizeErrorMessage }
  { s1 with loadingSummary := false }

/-- One call of a state setter, among those `handleSummarize` makes once
its `fetch` has settled. -/
inductive Setter
  | setSummary (value : String)
  | setKeyPoints (value : List String)
  | setError (value : String)
  | setLoadingSummary (value : Bool)
  deriving DecidableEq, Repr

/-- The state cells after one setter call. -/
def Setter.apply : Setter → CopilotState → CopilotState
  | .setSummary value, s => { s with summary := value }
  | .setKeyPoints value, s => { s with keyPoints := value }
  | .setError value, s => { s with error := value }
  | .setLoadingSummary value, s => { s with loadingSummary := value }

/-- The setter calls `handleSummarize` makes after the `await`, in the
order of the source: `setSummary` then `setKeyPoints` at the end of the
`try` block, or `setError` in `catch`, and then `setLoadingSummary` in
`finally`. -/
def handleSummarizeSetters (o : FetchOutcome SummaryData) : List Setter :=
  match o.data with
  | some data =>
    [.setSummary (data.summary.getD ""), .setKeyPoints (data.key_points.getD []),
     .setLoadingSummary false]
  | none => [.setError summarizeErrorMessage, .setLoadingSummary false]

/-- The state after each call of a list of setter calls. -/
def statesAfter (s : CopilotState) : List Setter → List CopilotState
  | [] => []
  | c :: cs => c.apply s :: statesAfter (c.apply s) cs

/-- The states the component is rendered with while the setter calls of
one continuation run. React is not part of the repository, and whether it
groups the calls made after an `await` into one update depends on its
version, so `batched` is a parameter: when it is on, only the state after
the last call is rendered, and otherwise the state after every call. -/
def rendered (batched : Bool) (s : CopilotState) (calls : List Setter) :
    List CopilotState :=
  if batched then (statesAfter s calls).getLast?.toList else statesAfter s calls

/-- The handler `handleAddAgentReplyToConversation`. -/
def handleAddAgentReplyToConversation (s : CopilotState) : CopilotState :=
  if falsy (trim s.suggestedReply) then s
  else
    let newMessage : Message := { role := .assistant, content := trim s.suggestedReply }
    { s with conversation := s.conversation ++ [newMessage] }

/-- The handler `handleAddCustomerFollowup`. -/
def handleAddCustomerFollowup (s : CopilotState) : CopilotState :=
  if falsy (trim s.latestCustomerMessage) then s
  else
    let newMessage : Message := { role := .user, content := trim s.latestCustomerMessage }
    { s with conversation := s.conversation ++ [newMessage], latestCustomerMessage := "" }

/-- The `disabled` attribute of the "Add to conversation" button. -/
def addCustomerFollowupDisabled (s : CopilotState) : Bool :=
  falsy (trim s.latestCustomerMessage)

/-- The `disabled` attribute of the "Suggest Reply" button. -/
def suggestReplyDisabled (s : CopilotState) : Bool :=
  s.loadingSuggest || falsy (trim s.latestCustomerMessage)

/-- The `disabled` attribute of the "Add as agent message" button. -/
def addAgentReplyDisabled (s : CopilotState) : Bool :=
  falsy (trim s.suggestedReply)

/-- The `disabled` attribute of the "Summarize" button. -/
def summarizeDisabled (s : CopilotState) : Bool :=
  s.loadingSummary || s.conversation.length == 0

/-- A click on the "Add to conversation" button. -/
def clickAddCustomerFollowup (s : CopilotState) : CopilotState :=
  if addCustomerFollowupDisabled s then s else handleAddCustomerFollowup s

/-- A click on the "Suggest Reply" button. -/
def clickSuggestReply (s : CopilotState) : CopilotState × List Request :=
  if suggestReplyDisabled s then (s, []) else handleSuggestReply s

/-- A click on the "Add as agent message" button. -/
def clickAddAgentReply (s : CopilotState) : CopilotState :=
  if addAgentReplyDisabled s then s else handleAddAgentReplyToConversation s

/-- A click on the "Summarize" button. -/
def clickSummarize (s : CopilotState) : CopilotState × List Request :=
  if summarizeDisabled s then (s, []) else handleSummarize s

/-! ## The views as event systems

The component state is paired with a ledger of the calls each action has
issued, so that a response can be told apart from a response to an older
call.  The ledger is bookkeeping of the model; the components keep no such
record. -/

/-- Calls of one action: how many were issued (they are numbered from 1)
and which of them have not settled yet. -/
structure Calls where
  issued : Nat
  inFlight : List Nat
  deriving DecidableEq, Repr

/-- No call issued yet. -/
def Calls.none : Calls :=
  { issued := 0, inFlight := [] }

/-- Record the requests a handler issued. -/
def Calls.issue (c : Calls) (reqs : List Request) : Calls :=
  { issued := c.issued + reqs.length,
    inFlight := c.inFlight ++ List.range' (c.issued + 1) reqs.length }

/-- Record that a call has settled. -/
def Calls.settle (c : Calls) (call : Nat) : Calls :=
  { c with inFlight := c.inFlight.erase call }

/-- The chatbot view with its call ledger. -/
structure ChatSystem where
  view : ChatState
  send : Calls
  deriving DecidableEq, Repr

/-- The chatbot view when it is mounted. -/
def ChatSystem.initial : ChatSystem :=
  { view := ChatState.initial, send := Calls.none }

/-- What can happen to the chatbot view. -/
inductive ChatEvent
  /-- The `onChange` event of the text area, `setInput(e.target.value)`. -/
  | change (value : String)
  /-- The `onKeyDown` event of the text area. -/
  | keyDown (key : String) (shiftKey : Bool)
  /-- A click on the send button. -/
  | click
  /-- The call numbered `call` settles with outcome `o`. -/
  | response (call : Nat) (o : FetchOutcome ChatData)
  deriving DecidableEq, Repr

/-- Record the result of a handler of the chatbot view. -/
def ChatSystem.after (σ : ChatSystem) (r : ChatState × List Request) : ChatSystem :=
  { view := r.1, send := σ.send.issue r.2 }

/-- One event of the chatbot view; `none` when a response is delivered
for a call that is not in flight. -/
def ChatSystem.step (σ : ChatSystem) : ChatEvent → Option ChatSystem
  | .change value => some { σ with view := { σ.view with input := value } }
  | .keyDown key shiftKey => some (σ.after (handleKeyDown σ.view key shiftKey))
  | .click => some (σ.after (clickSend σ.view))
  | .response call o =>
    if call ∈ σ.send.inFlight then
      some { view := handleSendResume σ.view o, send := σ.send.settle call }
    else none

/-- A sequence of events of the chatbot view. -/
def ChatSystem.run (σ : ChatSystem) : List ChatEvent → Option ChatSystem
  | [] => some σ
  | e :: es => (σ.step e).bind (fun σ1 => σ1.run es)

/-- The copilot view with one call ledger per action. -/
structure CopilotSystem where
  view : CopilotState
  suggest : Calls
  summarize : Calls
  deriving DecidableEq, Repr

/-- The copilot view when it is mounted. -/
def CopilotSystem.initial : CopilotSystem :=
  { view := CopilotState.initial, suggest := Calls.none, summarize := Calls.none }

/-- What can happen to the copilot view. -/
inductive CopilotEvent
  /-- The `onChange` event of the customer-message text area. -/
  | changeCustomerMessage (value : String)
  /-- The `onChange` event of the topic select. -/
  | changeTopicHint (value : String)
  /-- The `onChange` event of the suggested-reply text area. -/
  | changeSuggestedReply (value : String)
  /-- A click on "Add to conversation". -/
  | addCustomerFollowup
  /-- A click on "Suggest Reply". -/
  | suggestReply
  /-- A click on "Add as agent message". -/
  | addAgentReply
  /-- A click on "Summarize". -/
  | summarize
  /-- The suggest-reply call numbered `call` settles with outcome `o`. -/
  | suggestResponse (call : Nat) (o : FetchOutcome SuggestData)
  /-- The summarize call numbered `call` settles with outcome `o`. -/
  | summaryResponse (call : Nat) (o : FetchOutcome SummaryData)
  deriving DecidableEq, Repr

/-- One event of the copilot view; `none` when a response is delivered
for a call that is not in flight. -/
def CopilotSystem.step (σ : CopilotSystem) : CopilotEvent → Option CopilotSystem
  | .changeCustomerMessage value =>
    some { σ with view := { σ.view with latestCustomerMessage := value } }
  | .changeTopicHint value => some { σ with view := { σ.view with topicHint := value } }
  | .changeSuggestedReply value =>
    some { σ with view := { σ.view with suggestedReply := value } }
  | .addCustomerFollowup => some { σ with view := clickAddCustomerFollowup σ.view }
  | .suggestReply =>
    let r := clickSuggestReply σ.view
    some { σ with view := r.1, suggest := σ.suggest.issue r.2 }
  | .addAgentReply => some { σ with view := clickAddAgentReply σ.view }
  | .summarize =>
    let r := clickSummarize σ.view
    some { σ with view := r.1, summarize := σ.summarize.issue r.2 }
  | .suggestResponse call o =>
    if call ∈ σ.suggest.inFlight then
      some { σ with view := handleSuggestReplyResume σ.view o,
                    suggest := σ.suggest.settle call }
    else none
  | .summaryResponse call o =>
    if call ∈ σ.summarize.inFlight then
      some { σ with view := handleSummarizeResume σ.view o,
                    summarize := σ.summarize.settle call }
    else none

/-- A sequence of events of the copilot view. -/
def CopilotSystem.run (σ : CopilotSystem) : List CopilotEvent → Option CopilotSystem
  | [] => some σ
  | e :: es => (σ.step e).bind (fun σ1 => σ1.run es)

/-- The ledger of the chatbot view agrees with its loading flag: while
`loading` is on, exactly the most recent call is in flight, and otherwise
none is. -/
def ChatSystem.consistent (σ : ChatSystem) : Prop :=
  σ.send.inFlight = if σ.view.loading then [σ.send.issued] else []

instance (σ : ChatSystem) : Decidable σ.consistent := by
  unfold ChatSystem.consistent
  infer_instance

/-- The ledgers of the copilot view agree with its two loading flags. -/
def CopilotSystem.consistent (σ : CopilotSystem) : Prop :=
  σ.suggest.inFlight = (if σ.view.loadingSuggest then [σ.suggest.issued] else []) ∧
  σ.summarize.inFlight = (if σ.view.loadingSummary then [σ.summarize.issued] else [])

instance (σ : CopilotSystem) : Decidable σ.consistent := by
  unfold CopilotSystem.consistent
  infer_instance

/-! ## Named states and runs used in the examples -/

/-- The seeded copilot view after a click on "Suggest Reply" and a click
on "Summarize", with both calls still in flight. -/
def bothPending : CopilotState :=
  { CopilotState.initial with loadingSuggest := true, loadingSummary := true }

/-- The seeded copilot view after a suggest-reply call that failed. -/
def suggestFailed : CopilotState :=
  { CopilotState.initial with error := suggestErrorMessage }

/-- The seeded copilot view after a summarize call that failed. -/
def summarizeFailed : CopilotState :=
  { CopilotState.initial with error := summarizeErrorMessage }

/-- Type "Hello", then press Enter, click the button and press Enter
again before any response arrives. -/
def sendBurst : List ChatEvent :=
  [.change "Hello", .keyDown "Enter" false, .click, .keyDown "Enter" false]

/-- Click "Suggest Reply" twice and "Summarize" twice before any response
arrives. -/
def copilotBurst : List CopilotEvent :=
  [.suggestReply, .suggestReply, .summarize, .summarize]

/-- The events by which the agent appends message `m` in the copilot
view: type its text into the field of its role, then click the button
that adds it. -/
def appendEvents (m : Message) : List CopilotEvent :=
  match m.role with
  | .user => [.changeCustomerMessage m.content, .addCustomerFollowup]
  | .assistant => [.changeSuggestedReply m.content, .addAgentReply]

/-- The events that append the messages of a list, one after the other. -/
def appendAll : List Message → List CopilotEvent
  | [] => []
  | m :: ms => appendEvents m ++ appendAll ms

/-- A message as the handlers store it: the role with the trimmed text. -/
def stored (m : Message) : Message :=
  { role := m.role, content := trim m.content }

/-- The chatbot view once "Hello" has been sent: call 1 is in flight. -/
def helloSent : ChatSystem :=
  { view := ChatState.mk [⟨.user, "Hello"⟩] "" true "",
    send := { issued := 1, inFlight := [1] } }

/-- The chatbot view once call 1 has been answered with "Hi there". -/
def helloAnswered : ChatSystem :=
  { view := ChatState.mk [⟨.user, "Hello"⟩, ⟨.assistant, "Hi there"⟩] "" false "",
    send := { issued := 1, inFlight := [] } }

/-- The copilot view after `copilotBurst`: one call of each action is in
flight. -/
def burstSent : CopilotSystem :=
  { view := bothPending, suggest := { issued := 1, inFlight := [1] },
    summarize := { issued := 1, inFlight := [1] } }

/-- The copilot view once summarize call 1 has been answered, while
suggest-reply call 1 is still in flight. -/
def burstSummarized : CopilotSystem :=
  { view := { bothPending with loadingSummary := false, summary := "Late parcel" },
    suggest := { issued := 1, inFlight := [1] },
    summarize := { issued := 1, inFlight := [] } }

/-- Ask "Hello", receive "Hi there", then ask "Thanks". -/
def twoQuestions : List ChatEvent :=
  [.change "Hello", .click, .response 1 (.response 200 (.value ⟨some "Hi there"⟩)),
   .change "Thanks", .keyDown "Enter" false]

/-- The chatbot view after `twoQuestions`: call 1 has settled and call 2
is in flight. -/
def thanksSent : ChatSystem :=
  { view := ChatState.mk [⟨.user, "Hello"⟩, ⟨.assistant, "Hi there"⟩, ⟨.user, "Thanks"⟩]
      "" true "",
    send := { issued := 2, inFlight := [2] } }

/-! ## Facts about the primitives -/

theorem falsy_eq_true_iff (s : String) : falsy s = true ↔ s = "" := by
  simp [falsy]

theorem falsy_eq_false_iff (s : String) : falsy s = false ↔ s ≠ "" := by
  simp [falsy]

/-- A string made of white space only trims to the empty string. -/
theorem trim_eq_empty_of_blank (s : String)
    (h : ∀ c ∈ s.data, isWhiteSpace c = true) : trim s = "" := by
  have h1 : trimStart s.data = [] := by
    unfold trimStart
    exact List.dropWhile_eq_nil_iff.mpr h
  unfold trim
  rw [h1]
  rfl

/-- A string that trims to the empty string is made of white space only. -/
theorem blank_of_trim_eq_empty (s : String) (h : trim s = "") :
    ∀ c ∈ s.data, isWhiteSpace c = true := by
  have h1 : trimEnd (trimStart s.data) = [] := by
    have := congrArg String.data h
    simpa [trim] using this
  have h2 : trimStart s.data = [] := by
    unfold trimEnd at h1
    have h3 := List.reverse_eq_nil_iff.mp h1
    by_contra hne
    have hpos : 0 < (trimStart s.data).length := List.length_pos.mpr hne
    have hhead : isWhiteSpace ((trimStart s.data).get ⟨0, hpos⟩) = false := by
      have := List.head_dropWhile_not isWhiteSpace s.data
        (by simpa [trimStart] using hne)
      simp only [trimStart] at hne ⊢
      rw [List.get_eq_getElem, ← List.head_eq_getElem_zero hne]
      simpa using this
    have hall := List.dropWhile_eq_nil_iff.mp h3
    have hmem : (trimStart s.data).get ⟨0, hpos⟩ ∈ (trimStart s.data).reverse :=
      List.mem_reverse.mpr (List.get_mem _ _ _)
    have := hall _ hmem
    rw [hhead] at this
    exact Bool.noConfusion this
  unfold trimStart at h2
  exact List.dropWhile_eq_nil_iff.mp h2

/-- A non-2xx status, a transport error and an unparseable body all send
the handler to its `catch` block, whatever else the outcome holds. -/
theorem data_eq_none_of_failure {β : Type} :
    (FetchOutcome.networkError : FetchOutcome β).data = none ∧
    (∀ (status : Nat) (body : Parsed β), ok status = false →
      (FetchOutcome.response status body).data = none) ∧
    (∀ status : Nat, (FetchOutcome.response status (Parsed.malformed : Parsed β)).data = none) := by
  refine ⟨rfl, ?_, ?_⟩
  · intro status body h
    simp [FetchOutcome.data, h]
  · intro status
    simp [FetchOutcome.data]

/-- A 2xx response with a JSON body other than `null` gets through the
`try` block. -/
theorem data_of_success {β : Type} (status : Nat) (d : β) (h : ok status = true) :
    (FetchOutcome.response status (Parsed.value d)).data = some d := by
  simp [FetchOutcome.data, h]

/-- What `handleSend` does when its guard lets it through. -/
theorem handleSend_of_ready (s : ChatState) (hidle : s.loading = false)
    (ht : trim s.input ≠ "") :
    handleSend s =
      ({ messages := s.messages ++ [{ role := .user, content := trim s.input }],
         input := "", loading := true, error := "" },
       [{ method := "POST", path := "/chatbot/query",
          body := .chatbotQuery (trim s.input) s.messages }]) := by
  have hf : falsy (trim s.input) = false := (falsy_eq_false_iff _).mpr ht
  simp [handleSend, hf, hidle]

/-! ## The call ledger follows the loading flags -/

theorem Calls.issue_nil (c : Calls) : c.issue [] = c := by
  simp [Calls.issue]

theorem Calls.issue_one (c : Calls) (r : Request) :
    c.issue [r] = { issued := c.issued + 1, inFlight := c.inFlight ++ [c.issued + 1] } := by
  simp [Calls.issue, List.range']

/-- Either `handleSend` does nothing, or the view was not loading, is
loading afterwards, and one request went out. -/
theorem handleSend_cases (s : ChatState) :
    handleSend s = (s, []) ∨
    (s.loading = false ∧ (handleSend s).1.loading = true ∧ ∃ r, (handleSend s).2 = [r]) := by
  unfold handleSend
  by_cases h : (falsy (trim s.input) || s.loading) = true
  · left
    simp only [h, if_true]
  · right
    simp only [h]
    simp only [Bool.or_eq_true, not_or, Bool.not_eq_true] at h
    exact ⟨h.2, rfl, _, rfl⟩

theorem handleKeyDown_cases (s : ChatState) (key : String) (shiftKey : Bool) :
    handleKeyDown s key shiftKey = (s, []) ∨
    (s.loading = false ∧ (handleKeyDown s key shiftKey).1.loading = true ∧
      ∃ r, (handleKeyDown s key shiftKey).2 = [r]) := by
  unfold handleKeyDown
  split
  · exact handleSend_cases s
  · exact Or.inl rfl

theorem clickSend_cases (s : ChatState) :
    clickSend s = (s, []) ∨
    (s.loading = false ∧ (clickSend s).1.loading = true ∧ ∃ r, (clickSend s).2 = [r]) := by
  unfold clickSend
  split
  · exact Or.inl rfl
  · exact handleSend_cases s

theorem clickSuggestReply_cases (s : CopilotState) :
    clickSuggestReply s = (s, []) ∨
    (s.loadingSuggest = false ∧ (clickSuggestReply s).1.loadingSuggest = true ∧
      (clickSuggestReply s).1.loadingSummary = s.loadingSummary ∧
      ∃ r, (clickSuggestReply s).2 = [r]) := by
  unfold clickSuggestReply
  by_cases h : suggestReplyDisabled s = true
  · left
    simp only [h, if_true]
  · right
    simp only [h]
    simp only [suggestReplyDisabled, Bool.or_eq_true, not_or, Bool.not_eq_true] at h
    simp only [handleSuggestReply, h.2]
    exact ⟨h.1, rfl, rfl, _, rfl⟩

theorem clickSummarize_cases (s : CopilotState) :
    clickSummarize s = (s, []) ∨
    (s.loadingSummary = false ∧ (clickSummarize s).1.loadingSummary = true ∧
      (clickSummarize s).1.loadingSuggest = s.loadingSuggest ∧
      ∃ r, (clickSummarize s).2 = [r]) := by
  unfold clickSummarize
  by_cases h : summarizeDisabled s = true
  · left
    simp only [h, if_true]
  · right
    simp only [h]
    simp only [summarizeDisabled, Bool.or_eq_true, not_or, Bool.not_eq_true] at h
    exact ⟨h.1, rfl, rfl, _, rfl⟩

/-- Recording a handler result keeps the chatbot ledger consistent. -/
theorem ChatSystem.after_consistent (σ : ChatSystem) (r : ChatState × List Request)
    (hσ : σ.consistent)
    (hr : r = (σ.view, []) ∨ (σ.view.loading = false ∧ r.1.loading = true ∧ ∃ q, r.2 = [q])) :
    (σ.after r).consistent := by
  unfold ChatSystem.consistent at hσ ⊢
  rcases hr with hr | ⟨h0, h1, q, hq⟩
  · subst hr
    simpa [ChatSystem.after, Calls.issue_nil] using hσ
  · simp only [h0] at hσ
    simp [ChatSystem.after, hq, Calls.issue_one, h1, hσ]

/-- Every event keeps the chatbot ledger consistent. -/
theorem ChatSystem.chat_step_consistent (σ σ1 : ChatSystem) (e : ChatEvent)
    (hσ : σ.consistent) (h : σ.step e = some σ1) : σ1.consistent := by
  cases e with
  | change value =>
    simp only [ChatSystem.step, Option.some.injEq] at h
    subst h
    exact hσ
  | keyDown key shiftKey =>
    simp only [ChatSystem.step, Option.some.injEq] at h
    subst h
    exact σ.after_consistent _ hσ (handleKeyDown_cases _ _ _)
  | click =>
    simp only [ChatSystem.step, Option.some.injEq] at h
    subst h
    exact σ.after_consistent _ hσ (clickSend_cases _)
  | response call o =>
    unfold ChatSystem.consistent at hσ ⊢
    simp only [ChatSystem.step] at h
    split at h
    · rename_i hmem
      simp only [Option.some.injEq] at h
      subst h
      cases hl : σ.view.loading
      · simp [hl] at hσ
        simp [hσ] at hmem
      · simp only [hl, if_true] at hσ
        rw [hσ] at hmem
        have hc : call = σ.send.issued := by simpa using hmem
        subst hc
        simp [Calls.settle, hσ, handleSendResume]
    · exact Option.noConfusion h

/-- Every run keeps the chatbot ledger consistent. -/
theorem ChatSystem.chat_run_consistent (es : List ChatEvent) (σ σ1 : ChatSystem)
    (hσ : σ.consistent) (h : σ.run es = some σ1) : σ1.consistent := by
  induction es generalizing σ with
  | nil =>
    simp only [ChatSystem.run, Option.some.injEq] at h
    subst h
    exact hσ
  | cons e es ih =>
    simp only [ChatSystem.run] at h
    cases hs : σ.step e with
    | none => simp [hs] at h
    | some σ2 =>
      simp only [hs, Option.some_bind] at h
      exact ih σ2 (σ.chat_step_consistent σ2 e hσ hs) h

theorem ChatSystem.chat_initial_consistent : ChatSystem.initial.consistent := by
  decide

/-- The continuation of suggest-reply turns its own flag off and leaves
the flag of summarize alone. -/
theorem handleSuggestReplyResume_flags (s : CopilotState) (o : FetchOutcome SuggestData) :
    (handleSuggestReplyResume s o).loadingSuggest = false ∧
    (handleSuggestReplyResume s o).loadingSummary = s.loadingSummary := by
  unfold handleSuggestReplyResume
  cases o.data <;> exact ⟨rfl, rfl⟩

/-- The continuation of summarize turns its own flag off and leaves the
flag of suggest-reply alone. -/
theorem handleSummarizeResume_flags (s : CopilotState) (o : FetchOutcome SummaryData) :
    (handleSummarizeResume s o).loadingSummary = false ∧
    (handleSummarizeResume s o).loadingSuggest = s.loadingSuggest := by
  unfold handleSummarizeResume
  cases o.data <;> exact ⟨rfl, rfl⟩

theorem clickAddCustomerFollowup_flags (s : CopilotState) :
    (clickAddCustomerFollowup s).loadingSuggest = s.loadingSuggest ∧
    (clickAddCustomerFollowup s).loadingSummary = s.loadingSummary := by
  unfold clickAddCustomerFollowup handleAddCustomerFollowup
  split
  · exact ⟨rfl, rfl⟩
  · split <;> exact ⟨rfl, rfl⟩

theorem clickAddAgentReply_flags (s : CopilotState) :
    (clickAddAgentReply s).loadingSuggest = s.loadingSuggest ∧
    (clickAddAgentReply s).loadingSummary = s.loadingSummary := by
  unfold clickAddAgentReply handleAddAgentReplyToConversation
  split
  · exact ⟨rfl, rfl⟩
  · split <;> exact ⟨rfl, rfl⟩

/-- One ledger stays consistent when a handler result is recorded. -/
theorem Calls.issue_consistent (c : Calls) (before after : Bool) (reqs : List Request)
    (hc : c.inFlight = if before then [c.issued] else [])
    (hr : (after = before ∧ reqs = []) ∨ (before = false ∧ after = true ∧ ∃ q, reqs = [q])) :
    (c.issue reqs).inFlight = if after then [(c.issue reqs).issued] else [] := by
  rcases hr with ⟨h0, h1⟩ | ⟨h0, h1, q, hq⟩
  · subst h0 h1
    simpa [Calls.issue_nil] using hc
  · subst h0 h1 hq
    simp only [Bool.false_eq_true, if_false] at hc
    simp [Calls.issue_one, hc]

/-- One ledger stays consistent when its outstanding call settles. -/
theorem Calls.settle_consistent (c : Calls) (before : Bool) (call : Nat)
    (hc : c.inFlight = if before then [c.issued] else []) (hmem : call ∈ c.inFlight) :
    call = c.issued ∧ (c.settle call).inFlight = [] ∧ (c.settle call).issued = c.issued := by
  cases before
  · simp only [Bool.false_eq_true, if_false] at hc
    simp [hc] at hmem
  · simp only [if_true] at hc
    rw [hc] at hmem
    have hcall : call = c.issued := by simpa using hmem
    subst hcall
    simp [Calls.settle, hc]

/-- Every event keeps the copilot ledgers consistent. -/
theorem CopilotSystem.copilot_step_consistent (σ σ1 : CopilotSystem) (e : CopilotEvent)
    (hσ : σ.consistent) (h : σ.step e = some σ1) : σ1.consistent := by
  obtain ⟨h1, h2⟩ := hσ
  cases e with
  | changeCustomerMessage value =>
    simp only [CopilotSystem.step, Option.some.injEq] at h
    subst h
    exact ⟨h1, h2⟩
  | changeTopicHint value =>
    simp only [CopilotSystem.step, Option.some.injEq] at h
    subst h
    exact ⟨h1, h2⟩
  | changeSuggestedReply value =>
    simp only [CopilotSystem.step, Option.some.injEq] at h
    subst h
    exact ⟨h1, h2⟩
  | addCustomerFollowup =>
    simp only [CopilotSystem.step, Option.some.injEq] at h
    subst h
    have hf := clickAddCustomerFollowup_flags σ.view
    unfold CopilotSystem.consistent
    simp only [hf.1, hf.2]
    exact ⟨h1, h2⟩
  | addAgentReply =>
    simp only [CopilotSystem.step, Option.some.injEq] at h
    subst h
    have hf := clickAddAgentReply_flags σ.view
    unfold CopilotSystem.consistent
    simp only [hf.1, hf.2]
    exact ⟨h1, h2⟩
  | suggestReply =>
    simp only [CopilotSystem.step, Option.some.injEq] at h
    subst h
    unfold CopilotSystem.consistent
    rcases clickSuggestReply_cases σ.view with hc | ⟨ha, hb, hd, q, hq⟩
    · simp only [hc, Calls.issue_nil]
      exact ⟨h1, h2⟩
    · refine ⟨Calls.issue_consistent _ _ _ _ h1 (Or.inr ⟨ha, hb, q, hq⟩), ?_⟩
      simp only [hd]
      exact h2
  | summarize =>
    simp only [CopilotSystem.step, Option.some.injEq] at h
    subst h
    unfold CopilotSystem.consistent
    rcases clickSummarize_cases σ.view with hc | ⟨ha, hb, hd, q, hq⟩
    · simp only [hc, Calls.issue_nil]
      exact ⟨h1, h2⟩
    · refine ⟨?_, Calls.issue_consistent _ _ _ _ h2 (Or.inr ⟨ha, hb, q, hq⟩)⟩
      simp only [hd]
      exact h1
  | suggestResponse call o =>
    simp only [CopilotSystem.step] at h
    split at h
    · rename_i hmem
      simp only [Option.some.injEq] at h
      subst h
      have hs := Calls.settle_consistent _ _ call h1 hmem
      have hf := handleSuggestReplyResume_flags σ.view o
      unfold CopilotSystem.consistent
      simp only [hf.1, hf.2, hs.2.1]
      exact ⟨by simp, h2⟩
    · exact Option.noConfusion h
  | summaryResponse call o =>
    simp only [CopilotSystem.step] at h
    split at h
    · rename_i hmem
      simp only [Option.some.injEq] at h
      subst h
      have hs := Calls.settle_consistent _ _ call h2 hmem
      have hf := handleSummarizeResume_flags σ.view o
      unfold CopilotSystem.consistent
      simp only [hf.1, hf.2, hs.2.1]
      exact ⟨h1, by simp⟩
    · exact Option.noConfusion h

/-- Every run keeps the copilot ledgers consistent. -/
theorem CopilotSystem.copilot_run_consistent (es : List CopilotEvent) (σ σ1 : CopilotSystem)
    (hσ : σ.consistent) (h : σ.run es = some σ1) : σ1.consistent := by
  induction es generalizing σ with
  | nil =>
    simp only [CopilotSystem.run, Option.some.injEq] at h
    subst h
    exact hσ
  | cons e es ih =>
    simp only [CopilotSystem.run] at h
    cases hs : σ.step e with
    | none => simp [hs] at h
    | some σ2 =>
      simp only [hs, Option.some_bind] at h
      exact ih σ2 (σ.copilot_step_consistent σ2 e hσ hs) h

theorem CopilotSystem.copilot_initial_consistent : CopilotSystem.initial.consistent := by
  decide

/-- A consistent ledger holds at most one call in flight. -/
theorem length_inFlight_le_one (c : Calls) (b : Bool)
    (hc : c.inFlight = if b then [c.issued] else []) : c.inFlight.length ≤ 1 := by
  rw [hc]
  cases b <;> simp

/-! ## Chatbot: send -/

/-- Claim C1. From a chat state that is not loading, with conversation `m`
and an input whose trimmed text `t` is not empty, `handleSend` makes the
conversation `m ++ [user t]`, clears the input and issues exactly one
request, a POST to `/chatbot/query` with body `query = t`, `history = m`;
the history is the new conversation without its last message. The send
button and the Enter key do the same. -/
theorem chat_send_appends_and_queries (s : ChatState) (hidle : s.loading = false)
    (ht : trim s.input ≠ "") :
    (handleSend s).1.messages = s.messages ++ [{ role := .user, content := trim s.input }] ∧
    (handleSend s).1.input = "" ∧
    (handleSend s).2 =
      [{ method := "POST", path := "/chatbot/query",
         body := .chatbotQuery (trim s.input) s.messages }] ∧
    (handleSend s).2 =
      [{ method := "POST", path := "/chatbot/query",
         body := .chatbotQuery (trim s.input) (handleSend s).1.messages.dropLast }] ∧
    clickSend s = handleSend s ∧
    handleKeyDown s "Enter" false = handleSend s := by
  have hf : falsy (trim s.input) = false := (falsy_eq_false_iff _).mpr ht
  have h := handleSend_of_ready s hidle ht
  refine ⟨by rw [h], by rw [h], by rw [h], ?_, ?_, ?_⟩
  · rw [h]; simp
  · simp [clickSend, sendDisabled, hf, hidle]
  · simp [handleKeyDown]

/-- The instance of claim C1 named in the specification: input "Hello"
and no prior messages. -/
theorem chat_send_hello :
    ((ChatState.mk [] "Hello" false "").loading = false ∧
      trim (ChatState.mk [] "Hello" false "").input ≠ "") ∧
    (handleSend (ChatState.mk [] "Hello" false "")).1.messages
      = [{ role := .user, content := "Hello" }] ∧
    (handleSend (ChatState.mk [] "Hello" false "")).2
      = [{ method := "POST", path := "/chatbot/query", body := .chatbotQuery "Hello" [] }] := by
  have h := chat_send_appends_and_queries (ChatState.mk [] "Hello" false "") rfl (by decide)
  refine ⟨⟨rfl, by decide⟩, ?_, ?_⟩
  · exact h.1.trans (by decide)
  · exact h.2.2.1.trans (by decide)

/-! ## Blank input -/

/-- Claim C3. When the chat input, respectively the customer-message
field, is empty or holds white space only, `handleSend`, respectively
`handleSuggestReply`, returns the state unchanged and issues no request;
so do the button and the Enter key. -/
theorem blank_input_is_rejected :
    (∀ s : ChatState, (∀ c ∈ s.input.data, isWhiteSpace c = true) →
      handleSend s = (s, []) ∧ clickSend s = (s, []) ∧
      ∀ key shiftKey, handleKeyDown s key shiftKey = (s, [])) ∧
    (∀ s : CopilotState, (∀ c ∈ s.latestCustomerMessage.data, isWhiteSpace c = true) →
      handleSuggestReply s = (s, []) ∧ clickSuggestReply s = (s, [])) := by
  constructor
  · intro s h
    have ht := trim_eq_empty_of_blank _ h
    have h1 : handleSend s = (s, []) := by simp [handleSend, ht, falsy]
    refine ⟨h1, ?_, ?_⟩
    · simp [clickSend, h1]
    · intro key shiftKey
      simp [handleKeyDown, h1]
  · intro s h
    have ht := trim_eq_empty_of_blank _ h
    have h1 : handleSuggestReply s = (s, []) := by simp [handleSuggestReply, ht, falsy]
    exact ⟨h1, by simp [clickSuggestReply, h1]⟩

/-- Claim C3 at a chat input of a space, a tab and a line feed, and at a
customer message of a no-break space and an ideographic space. -/
theorem blank_input_is_rejected_witness :
    handleSend (ChatState.mk [] " \t\n" false "") = (ChatState.mk [] " \t\n" false "", []) ∧
    handleSuggestReply { CopilotState.initial with latestCustomerMessage := "\u00A0\u3000" }
      = ({ CopilotState.initial with latestCustomerMessage := "\u00A0\u3000" }, []) :=
  ⟨(blank_input_is_rejected.1 (ChatState.mk [] " \t\n" false "") (by decide)).1,
   (blank_input_is_rejected.2
      { CopilotState.initial with latestCustomerMessage := "\u00A0\u3000" } (by decide)).1⟩

/-! ## Failed calls -/

/-- Claim C4. Whenever the call fails (`data` is `none`, which covers every
non-2xx status whatever the body, a transport error and an unparseable
body), the continuation of each of the three handlers ends with the
loading flag of its action off and the error set to the fixed message of
that action; and a chat send started from conversation `m` with trimmed
input `t` ends with the conversation `m ++ [user t]`. -/
theorem failed_call_resolves_to_failed :
    (∀ (β : Type) (o : FetchOutcome β),
      (o = .networkError ∨ (∃ status body, o = .response status body ∧ ok status = false) ∨
        (∃ status, o = .response status .malformed)) → o.data = none) ∧
    (∀ (s : ChatState) (o : FetchOutcome ChatData), o.data = none →
      (handleSendResume s o).loading = false ∧
      (handleSendResume s o).error = chatErrorMessage ∧
      (handleSendResume s o).messages = s.messages) ∧
    (∀ (s : CopilotState) (o : FetchOutcome SuggestData), o.data = none →
      (handleSuggestReplyResume s o).loadingSuggest = false ∧
      (handleSuggestReplyResume s o).error = suggestErrorMessage) ∧
    (∀ (s : CopilotState) (o : FetchOutcome SummaryData), o.data = none →
      (handleSummarizeResume s o).loadingSummary = false ∧
      (handleSummarizeResume s o).error = summarizeErrorMessage) ∧
    (∀ (s : ChatState) (o : FetchOutcome ChatData),
      s.loading = false → trim s.input ≠ "" → o.data = none →
      (handleSend s).1.loading = true ∧
      handleSendResume (handleSend s).1 o =
        { messages := s.messages ++ [{ role := .user, content := trim s.input }],
          input := "", loading := false, error := chatErrorMessage }) := by
  refine ⟨?_, ?_, ?_, ?_, ?_⟩
  · intro β o h
    rcases h with h | ⟨status, body, h, hs⟩ | ⟨status, h⟩
    · subst h
      exact data_eq_none_of_failure.1
    · subst h
      exact data_eq_none_of_failure.2.1 status body hs
    · subst h
      exact data_eq_none_of_failure.2.2 status
  · intro s o h
    simp [handleSendResume, h]
  · intro s o h
    simp [handleSuggestReplyResume, h]
  · intro s o h
    simp [handleSummarizeResume, h]
  · intro s o hidle ht h
    rw [handleSend_of_ready s hidle ht]
    simp [handleSendResume, h]

/-- Claim C4 at a response with status 500 and a well-formed body, for the
chat input "Where is my order?" and for the seeded copilot view. -/
theorem failed_call_resolves_to_failed_witness :
    (handleSendResume (handleSend (ChatState.mk [] " Where is my order? " false "")).1
        (.response 500 (.value ⟨some "ignored"⟩))
      = { messages := [{ role := .user, content := "Where is my order?" }],
          input := "", loading := false, error := chatErrorMessage }) ∧
    (handleSuggestReplyResume (handleSuggestReply CopilotState.initial).1
        (.response 500 (.value ⟨some "ignored"⟩))).loadingSuggest = false ∧
    (handleSummarizeResume (handleSummarize CopilotState.initial).1
        (.response 500 (.value ⟨some "ignored", none⟩))).error = summarizeErrorMessage ∧
    (handleSendResume (ChatState.mk [] "" true "") .networkError).loading = false :=
  ⟨(failed_call_resolves_to_failed.2.2.2.2 (ChatState.mk [] " Where is my order? " false "")
      (.response 500 (.value ⟨some "ignored"⟩)) rfl (by decide)
      (failed_call_resolves_to_failed.1 _ _ (Or.inr (Or.inl ⟨_, _, rfl, rfl⟩)))).2.trans
      (by decide),
   (failed_call_resolves_to_failed.2.2.1 _ (.response 500 (.value ⟨some "ignored"⟩)) rfl).1,
   (failed_call_resolves_to_failed.2.2.2.1 _
      (.response 500 (.value ⟨some "ignored", none⟩)) rfl).2,
   (failed_call_resolves_to_failed.2.1 (ChatState.mk [] "" true "") .networkError
      (failed_call_resolves_to_failed.1 _ _ (Or.inl rfl))).1⟩

/-! ## Chatbot: successful reply -/

/-- Claim C5. After a chat send started from a state that is not loading,
with conversation `m` and trimmed input `t`, a 2xx response whose body
carries `reply` makes the state exactly: conversation
`m ++ [user t, assistant r]`, input empty, loading off, error empty, where
`r` is the reply, or the empty string when the field is missing or null.
On any state the continuation appends exactly one assistant message. -/
theorem chat_success_appends_reply (s : ChatState) (status : Nat) (data : ChatData)
    (hidle : s.loading = false) (ht : trim s.input ≠ "") (hok : ok status = true) :
    handleSendResume (handleSend s).1 (.response status (.value data)) =
      { messages := s.messages ++
          [{ role := .user, content := trim s.input },
           { role := .assistant, content := data.reply.getD "" }],
        input := "", loading := false, error := "" } ∧
    (∀ r, data.reply = some r → data.reply.getD "" = r) ∧
    (data.reply = none → data.reply.getD "" = "") ∧
    (∀ p : ChatState, (handleSendResume p (.response status (.value data))).messages =
      p.messages ++ [{ role := .assistant, content := data.reply.getD "" }]) := by
  have hd := data_of_success status data hok
  refine ⟨?_, ?_, ?_, ?_⟩
  · rw [handleSend_of_ready s hidle ht]
    simp [handleSendResume, hd]
  · intro r hr
    simp [hr]
  · intro hr
    simp [hr]
  · intro p
    simp [handleSendResume, hd]

/-- Claim C5 at the reply of the specification, after one earlier
exchange, and at a body without a `reply` field. -/
theorem chat_success_appends_reply_witness :
    handleSendResume
        (handleSend (ChatState.mk [⟨.user, "Hi"⟩, ⟨.assistant, "Hello!"⟩]
          "My parcel is late" false "")).1
        (.response 200 (.value ⟨some "We'll look into it."⟩))
      = { messages := [⟨.user, "Hi"⟩, ⟨.assistant, "Hello!"⟩, ⟨.user, "My parcel is late"⟩,
                       ⟨.assistant, "We'll look into it."⟩],
          input := "", loading := false, error := "" } ∧
    (handleSendResume (handleSend (ChatState.mk [] "Hello" false "")).1
        (.response 200 (.value ⟨none⟩))).messages
      = [⟨.user, "Hello"⟩, ⟨.assistant, ""⟩] :=
  ⟨(chat_success_appends_reply
      (ChatState.mk [⟨.user, "Hi"⟩, ⟨.assistant, "Hello!"⟩] "My parcel is late" false "")
      200 ⟨some "We'll look into it."⟩ rfl (by decide) rfl).1.trans (by decide),
   (congrArg ChatState.messages
      (chat_success_appends_reply (ChatState.mk [] "Hello" false "")
        200 ⟨none⟩ rfl (by decide) rfl).1).trans (by decide)⟩

/-! ## Copilot: the suggested reply is held apart -/

/-- Claim C6. Starting and completing a suggest-reply call, with any
outcome, leave the conversation as it was, and a successful call stores
the suggestion in `suggestedReply`; `handleAddAgentReplyToConversation`
appends the single message `assistant u` and changes nothing else when
the trimmed suggestion `u` is not empty, and changes nothing at all when
the suggestion is blank. -/
theorem suggestion_is_not_auto_appended :
    (∀ s : CopilotState, (handleSuggestReply s).1.conversation = s.conversation) ∧
    (∀ (s : CopilotState) (o : FetchOutcome SuggestData),
      (handleSuggestReplyResume s o).conversation = s.conversation ∧
      (handleSuggestReplyResume (handleSuggestReply s).1 o).conversation = s.conversation) ∧
    (∀ (s : CopilotState) (status : Nat) (data : SuggestData), ok status = true →
      (handleSuggestReplyResume s (.response status (.value data))).suggestedReply
        = data.suggested_reply.getD "") ∧
    (∀ s : CopilotState, trim s.suggestedReply ≠ "" →
      handleAddAgentReplyToConversation s =
        { s with conversation :=
            s.conversation ++ [{ role := .assistant, content := trim s.suggestedReply }] } ∧
      clickAddAgentReply s = handleAddAgentReplyToConversation s) ∧
    (∀ s : CopilotState, (∀ c ∈ s.suggestedReply.data, isWhiteSpace c = true) →
      handleAddAgentReplyToConversation s = s ∧ clickAddAgentReply s = s) := by
  have hconv : ∀ s : CopilotState, (handleSuggestReply s).1.conversation = s.conversation := by
    intro s
    unfold handleSuggestReply
    split <;> rfl
  have hres : ∀ (s : CopilotState) (o : FetchOutcome SuggestData),
      (handleSuggestReplyResume s o).conversation = s.conversation := by
    intro s o
    unfold handleSuggestReplyResume
    cases o.data <;> rfl
  refine ⟨hconv, ?_, ?_, ?_, ?_⟩
  · intro s o
    exact ⟨hres s o, (hres _ o).trans (hconv s)⟩
  · intro s status data hok
    simp [handleSuggestReplyResume, data_of_success status data hok]
  · intro s ht
    have hf : falsy (trim s.suggestedReply) = false := (falsy_eq_false_iff _).mpr ht
    simp [handleAddAgentReplyToConversation, clickAddAgentReply, addAgentReplyDisabled, hf]
  · intro s h
    have ht := trim_eq_empty_of_blank _ h
    simp [handleAddAgentReplyToConversation, clickAddAgentReply, addAgentReplyDisabled, ht, falsy]

/-- Claim C6 at the seeded view with the suggestion " On it. ", and with
a suggestion of two spaces. -/
theorem suggestion_is_not_auto_appended_witness :
    (handleSuggestReplyResume CopilotState.initial
        (.response 200 (.value ⟨some "On it."⟩))).suggestedReply = "On it." ∧
    handleAddAgentReplyToConversation { CopilotState.initial with suggestedReply := " On it. " }
      = { CopilotState.initial with
            suggestedReply := " On it. ",
            conversation := defaultConversation ++ [⟨.assistant, "On it."⟩] } ∧
    handleAddAgentReplyToConversation { CopilotState.initial with suggestedReply := "  " }
      = { CopilotState.initial with suggestedReply := "  " } :=
  ⟨(suggestion_is_not_auto_appended.2.2.1 CopilotState.initial 200 ⟨some "On it."⟩ rfl).trans rfl,
   (suggestion_is_not_auto_appended.2.2.2.1
      { CopilotState.initial with suggestedReply := " On it. " } (by decide)).1.trans (by decide),
   (suggestion_is_not_auto_appended.2.2.2.2
      { CopilotState.initial with suggestedReply := "  " } (by decide)).1⟩

/-! ## Triggers while a call is pending -/

/-- Claim C2. Triggering an action while its loading flag is on is a
no-op. For chat send, `handleSend` returns the state unchanged and issues
nothing, whether it is reached by the button or by the Enter key. For
suggest-reply and summarize the trigger is the button, the only caller of
the handler: while the loading flag of the action is on the button is
disabled, and a click returns the state unchanged and issues nothing. So
in every run of either view from its initial state, each action has at
most one call in flight. -/
theorem pending_trigger_is_suppressed :
    (∀ s : ChatState, s.loading = true →
      handleSend s = (s, []) ∧ clickSend s = (s, []) ∧
      ∀ key shiftKey, handleKeyDown s key shiftKey = (s, [])) ∧
    (∀ s : CopilotState, s.loadingSuggest = true →
      suggestReplyDisabled s = true ∧ clickSuggestReply s = (s, [])) ∧
    (∀ s : CopilotState, s.loadingSummary = true →
      summarizeDisabled s = true ∧ clickSummarize s = (s, [])) ∧
    (∀ (es : List ChatEvent) (σ : ChatSystem), ChatSystem.initial.run es = some σ →
      σ.send.inFlight.length ≤ 1) ∧
    (∀ (es : List CopilotEvent) (σ : CopilotSystem), CopilotSystem.initial.run es = some σ →
      σ.suggest.inFlight.length ≤ 1 ∧ σ.summarize.inFlight.length ≤ 1) := by
  refine ⟨?_, ?_, ?_, ?_, ?_⟩
  · intro s h
    have h1 : handleSend s = (s, []) := by simp [handleSend, h]
    refine ⟨h1, by simp [clickSend, h1], ?_⟩
    intro key shiftKey
    simp [handleKeyDown, h1]
  · intro s h
    simp [clickSuggestReply, suggestReplyDisabled, h]
  · intro s h
    simp [clickSummarize, summarizeDisabled, h]
  · intro es σ h
    exact length_inFlight_le_one _ _
      (ChatSystem.chat_run_consistent es _ σ ChatSystem.chat_initial_consistent h)
  · intro es σ h
    have hc := CopilotSystem.copilot_run_consistent es _ σ
      CopilotSystem.copilot_initial_consistent h
    exact ⟨length_inFlight_le_one _ _ hc.1, length_inFlight_le_one _ _ hc.2⟩

/-- Claim C2 at a loading chat view with a new question typed,
at the copilot view with both calls pending, and on two bursts of
triggers, each of which sends one call per action. -/
theorem pending_trigger_is_suppressed_witness :
    handleSend (ChatState.mk [⟨.user, "Hello"⟩] "Anyone there?" true "")
      = (ChatState.mk [⟨.user, "Hello"⟩] "Anyone there?" true "", []) ∧
    clickSuggestReply bothPending = (bothPending, []) ∧
    clickSummarize bothPending = (bothPending, []) ∧
    (ChatSystem.initial.run sendBurst = some helloSent ∧
      helloSent.send.inFlight.length ≤ 1) ∧
    (CopilotSystem.initial.run copilotBurst = some burstSent ∧
      burstSent.suggest.inFlight.length ≤ 1) :=
  ⟨(pending_trigger_is_suppressed.1 _ rfl).1,
   (pending_trigger_is_suppressed.2.1 bothPending rfl).2,
   (pending_trigger_is_suppressed.2.2.1 bothPending rfl).2,
   ⟨by decide, pending_trigger_is_suppressed.2.2.2.1 sendBurst helloSent (by decide)⟩,
   ⟨by decide, (pending_trigger_is_suppressed.2.2.2.2 copilotBurst burstSent (by decide)).1⟩⟩

/-! ## Copilot: summarize -/

/-- Claim C7, as stated, fails for a state whose conversation is not
empty but whose summarize call is pending: after one click on
"Summarize" in the seeded view the conversation still holds its three
messages, the button is disabled, and a further click issues no request
and changes nothing. -/
theorem summarize_click_while_pending :
    (clickSummarize CopilotState.initial).1.conversation = defaultConversation ∧
    (clickSummarize CopilotState.initial).1.conversation ≠ [] ∧
    (clickSummarize CopilotState.initial).1.loadingSummary = true ∧
    summarizeDisabled (clickSummarize CopilotState.initial).1 = true ∧
    (clickSummarize (clickSummarize CopilotState.initial).1).2 = [] ∧
    clickSummarize (clickSummarize CopilotState.initial).1
      = ((clickSummarize CopilotState.initial).1, []) := by
  decide

/-- Claim C7, amended. With an empty conversation the "Summarize" button
is disabled, and a click issues nothing and changes nothing. With a
conversation that is not empty and no summarize call pending, the button
is enabled and a click turns the loading flag on, clears the error, the
summary and the key points, and issues exactly one request, a POST to
`/copilot/summarize-case` whose body is the conversation; the
customer-message field plays no part in either. After a 2xx response with
a body the continuation calls `setSummary`, then `setKeyPoints`, then
`setLoadingSummary`, with the fields of the body or the empty string and
the empty list, and the state at its end has both values and the loading
flag off, nothing else changed. When the calls of a continuation are
rendered as one update, the only state rendered has both values; when
each call is rendered, the first state rendered has the new summary and
still the old key points. -/
theorem summarize_gate_and_replace :
    (∀ s : CopilotState, s.conversation = [] →
      summarizeDisabled s = true ∧ clickSummarize s = (s, [])) ∧
    (∀ s : CopilotState, s.conversation ≠ [] → s.loadingSummary = false →
      summarizeDisabled s = false ∧
      clickSummarize s =
        ({ s with loadingSummary := true, error := "", summary := "", keyPoints := [] },
         [{ method := "POST", path := "/copilot/summarize-case",
            body := .summarizeCase s.conversation }])) ∧
    (∀ (s : CopilotState) (value : String),
      summarizeDisabled { s with latestCustomerMessage := value } = summarizeDisabled s ∧
      (clickSummarize { s with latestCustomerMessage := value }).2 = (clickSummarize s).2) ∧
    (∀ (s : CopilotState) (o : FetchOutcome SummaryData),
      (handleSummarizeSetters o).foldl (fun st c => c.apply st) s
        = handleSummarizeResume s o) ∧
    (∀ (s : CopilotState) (status : Nat) (data : SummaryData), ok status = true →
      handleSummarizeSetters (.response status (.value data)) =
        [.setSummary (data.summary.getD ""), .setKeyPoints (data.key_points.getD []),
         .setLoadingSummary false] ∧
      handleSummarizeResume s (.response status (.value data)) =
        { s with summary := data.summary.getD "", keyPoints := data.key_points.getD [],
                 loadingSummary := false } ∧
      rendered true s (handleSummarizeSetters (.response status (.value data))) =
        [{ s with summary := data.summary.getD "", keyPoints := data.key_points.getD [],
                  loadingSummary := false }] ∧
      rendered false s (handleSummarizeSetters (.response status (.value data))) =
        [{ s with summary := data.summary.getD "" },
         { s with summary := data.summary.getD "", keyPoints := data.key_points.getD [] },
         { s with summary := data.summary.getD "", keyPoints := data.key_points.getD [],
                  loadingSummary := false }]) := by
  refine ⟨?_, ?_, ?_, ?_, ?_⟩
  · intro s h
    simp [clickSummarize, summarizeDisabled, h]
  · intro s hne hidle
    have hlen : (s.conversation.length == 0) = false := by
      simpa using hne
    simp [clickSummarize, summarizeDisabled, handleSummarize, hidle, hlen]
  · intro s value
    refine ⟨rfl, ?_⟩
    unfold clickSummarize
    have hd : summarizeDisabled { s with latestCustomerMessage := value }
        = summarizeDisabled s := rfl
    rw [hd]
    cases summarizeDisabled s <;> rfl
  · intro s o
    unfold handleSummarizeSetters handleSummarizeResume
    cases o.data <;> rfl
  · intro s status data hok
    have hd := data_of_success status data hok
    refine ⟨?_, ?_, ?_, ?_⟩
    · simp [handleSummarizeSetters, hd]
    · simp [handleSummarizeResume, hd]
    · simp [handleSummarizeSetters, hd, rendered, statesAfter, Setter.apply]
    · simp [handleSummarizeSetters, hd, rendered, statesAfter, Setter.apply]

/-- Claim C7, amended, at an emptied conversation, at the seeded view
with an empty customer-message field and an older summary shown, and at
responses to the call sent from the seeded view: with each call rendered,
the first state rendered has the new summary and no key points yet. -/
theorem summarize_gate_and_replace_witness :
    clickSummarize { CopilotState.initial with conversation := [] }
      = ({ CopilotState.initial with conversation := [] }, []) ∧
    clickSummarize
        { CopilotState.initial with latestCustomerMessage := "", summary := "Old",
                                    keyPoints := ["old"], error := summarizeErrorMessage }
      = ({ CopilotState.initial with latestCustomerMessage := "", loadingSummary := true },
         [{ method := "POST", path := "/copilot/summarize-case",
            body := .summarizeCase defaultConversation }]) ∧
    handleSummarizeResume (clickSummarize CopilotState.initial).1
        (.response 200 (.value ⟨some "Late parcel", none⟩))
      = { CopilotState.initial with summary := "Late parcel", keyPoints := [] } ∧
    (rendered false (clickSummarize CopilotState.initial).1
        (handleSummarizeSetters
          (.response 200 (.value ⟨some "Late parcel", some ["Order #12345"]⟩)))).head?
      = some { CopilotState.initial with
                 loadingSummary := true, summary := "Late parcel", keyPoints := [] } :=
  ⟨(summarize_gate_and_replace.1 { CopilotState.initial with conversation := [] } rfl).2,
   ((summarize_gate_and_replace.2.1
      { CopilotState.initial with latestCustomerMessage := "", summary := "Old",
                                  keyPoints := ["old"], error := summarizeErrorMessage }
      (by decide) rfl).2).trans (by decide),
   ((summarize_gate_and_replace.2.2.2.2 (clickSummarize CopilotState.initial).1 200
      ⟨some "Late parcel", none⟩ rfl).2.1).trans (by decide),
   (congrArg List.head?
      (summarize_gate_and_replace.2.2.2.2 (clickSummarize CopilotState.initial).1 200
        ⟨some "Late parcel", some ["Order #12345"]⟩ rfl).2.2.2).trans (by decide)⟩

/-! ## Copilot: the two actions side by side -/

/-- Claim C8, as stated, fails for the error message: after a failed
suggest-reply call on the seeded view, a click on "Summarize" clears the
message that suggest-reply left, and a failure of that summarize call
replaces it by its own; likewise a click on "Suggest Reply" clears the
message left by a failed summarize call. -/
theorem error_field_is_shared :
    suggestFailed =
      handleSuggestReplyResume (clickSuggestReply CopilotState.initial).1 .networkError ∧
    suggestFailed.error = suggestErrorMessage ∧
    (clickSummarize suggestFailed).1.error = "" ∧
    (clickSummarize suggestFailed).1.error ≠ suggestFailed.error ∧
    (handleSummarizeResume (clickSummarize suggestFailed).1 (.response 500 .malformed)).error
      = summarizeErrorMessage ∧
    summarizeFailed =
      handleSummarizeResume (clickSummarize CopilotState.initial).1 .networkError ∧
    (clickSuggestReply summarizeFailed).1.error ≠ summarizeFailed.error := by
  decide

/-- Claim C8, amended. Starting or completing summarize leaves the
loading flag and the suggested reply of suggest-reply unchanged; starting
or completing suggest-reply leaves the loading flag, the summary and the
key points of summarize unchanged; and each button stays enabled, and a
click on it issues a call, while the other action is pending. The error
message is one field for both actions: starting either action clears it,
a failure of either one stores its own message there, whatever was there
before, and a success leaves it as it is. -/
theorem actions_share_only_the_error :
    (∀ (s : CopilotState) (o : FetchOutcome SummaryData),
      (handleSummarize s).1.loadingSuggest = s.loadingSuggest ∧
      (handleSummarize s).1.suggestedReply = s.suggestedReply ∧
      (handleSummarizeResume s o).loadingSuggest = s.loadingSuggest ∧
      (handleSummarizeResume s o).suggestedReply = s.suggestedReply) ∧
    (∀ (s : CopilotState) (o : FetchOutcome SuggestData),
      (handleSuggestReply s).1.loadingSummary = s.loadingSummary ∧
      (handleSuggestReply s).1.summary = s.summary ∧
      (handleSuggestReply s).1.keyPoints = s.keyPoints ∧
      (handleSuggestReplyResume s o).loadingSummary = s.loadingSummary ∧
      (handleSuggestReplyResume s o).summary = s.summary ∧
      (handleSuggestReplyResume s o).keyPoints = s.keyPoints) ∧
    (∀ s : CopilotState, s.loadingSummary = true → s.loadingSuggest = false →
      trim s.latestCustomerMessage ≠ "" →
      suggestReplyDisabled s = false ∧ ∃ r, (clickSuggestReply s).2 = [r]) ∧
    (∀ s : CopilotState, s.loadingSuggest = true → s.loadingSummary = false →
      s.conversation ≠ [] →
      summarizeDisabled s = false ∧ ∃ r, (clickSummarize s).2 = [r]) ∧
    (∀ s : CopilotState, (handleSummarize s).1.error = "" ∧
      (trim s.latestCustomerMessage ≠ "" → (handleSuggestReply s).1.error = "")) ∧
    (∀ (s : CopilotState) (o : FetchOutcome SuggestData) (p : FetchOutcome SummaryData),
      (o.data = none → (handleSuggestReplyResume s o).error = suggestErrorMessage) ∧
      (p.data = none → (handleSummarizeResume s p).error = summarizeErrorMessage) ∧
      (o.data ≠ none → (handleSuggestReplyResume s o).error = s.error) ∧
      (p.data ≠ none → (handleSummarizeResume s p).error = s.error)) := by
  refine ⟨?_, ?_, ?_, ?_, ?_, ?_⟩
  · intro s o
    refine ⟨rfl, rfl, ?_, ?_⟩ <;>
    · unfold handleSummarizeResume
      cases o.data <;> rfl
  · intro s o
    refine ⟨?_, ?_, ?_, ?_, ?_, ?_⟩
    · unfold handleSuggestReply
      split <;> rfl
    · unfold handleSuggestReply
      split <;> rfl
    · unfold handleSuggestReply
      split <;> rfl
    · unfold handleSuggestReplyResume
      cases o.data <;> rfl
    · unfold handleSuggestReplyResume
      cases o.data <;> rfl
    · unfold handleSuggestReplyResume
      cases o.data <;> rfl
  · intro s _ hidle ht
    have hf : falsy (trim s.latestCustomerMessage) = false := (falsy_eq_false_iff _).mpr ht
    simp [clickSuggestReply, suggestReplyDisabled, handleSuggestReply, hidle, hf]
  · intro s _ hidle hne
    have hlen : (s.conversation.length == 0) = false := by
      simpa using hne
    simp [clickSummarize, summarizeDisabled, handleSummarize, hidle, hlen]
  · intro s
    refine ⟨rfl, ?_⟩
    intro ht
    have hf : falsy (trim s.latestCustomerMessage) = false := (falsy_eq_false_iff _).mpr ht
    simp [handleSuggestReply, hf]
  · intro s o p
    refine ⟨?_, ?_, ?_, ?_⟩
    · intro h
      simp [handleSuggestReplyResume, h]
    · intro h
      simp [handleSummarizeResume, h]
    · intro h
      obtain ⟨d, hd⟩ := Option.ne_none_iff_exists'.mp h
      simp [handleSuggestReplyResume, hd]
    · intro h
      obtain ⟨d, hd⟩ := Option.ne_none_iff_exists'.mp h
      simp [handleSummarizeResume, hd]

/-- Claim C8, amended, on the seeded view: each button is enabled while
only the other action is pending, a summary survives a suggest-reply
call, and after a failed suggest-reply call a failed summarize call
replaces the message by its own. -/
theorem actions_share_only_the_error_witness :
    suggestReplyDisabled { CopilotState.initial with loadingSummary := true } = false ∧
    summarizeDisabled { CopilotState.initial with loadingSuggest := true } = false ∧
    (handleSuggestReply { CopilotState.initial with summary := "Late parcel" }).1.error = "" ∧
    (handleSuggestReplyResume
        (handleSuggestReply { CopilotState.initial with summary := "Late parcel" }).1
        (.response 200 (.value ⟨some "On it."⟩))).summary = "Late parcel" ∧
    (handleSummarizeResume (clickSummarize suggestFailed).1 (.response 503 .malformed)).error
      = summarizeErrorMessage ∧
    (handleSuggestReplyResume (clickSuggestReply summarizeFailed).1 .networkError).error
      = suggestErrorMessage :=
  ⟨(actions_share_only_the_error.2.2.1
      { CopilotState.initial with loadingSummary := true } rfl rfl (by decide)).1,
   (actions_share_only_the_error.2.2.2.1
      { CopilotState.initial with loadingSuggest := true } rfl rfl (by decide)).1,
   (actions_share_only_the_error.2.2.2.2.1
      { CopilotState.initial with summary := "Late parcel" }).2 (by decide),
   ((actions_share_only_the_error.2.1 _ (.response 200 (.value ⟨some "On it."⟩))).2.2.2.2.1).trans
     (actions_share_only_the_error.2.1
        { CopilotState.initial with summary := "Late parcel" } .networkError).2.1,
   (actions_share_only_the_error.2.2.2.2.2 (clickSummarize suggestFailed).1 .networkError
      (.response 503 .malformed)).2.1 rfl,
   (actions_share_only_the_error.2.2.2.2.2 (clickSuggestReply summarizeFailed).1 .networkError
      .networkError).1 rfl⟩

/-! ## The conversation only grows -/

theorem handleSend_messages (s : ChatState) : s.messages <+: (handleSend s).1.messages := by
  unfold handleSend
  dsimp only
  split
  · exact ⟨[], List.append_nil _⟩
  · exact ⟨_, rfl⟩

theorem handleSendResume_messages (s : ChatState) (o : FetchOutcome ChatData) :
    s.messages <+: (handleSendResume s o).messages := by
  unfold handleSendResume
  cases o.data
  · exact ⟨[], List.append_nil _⟩
  · exact ⟨_, rfl⟩

theorem handleSuggestReply_conversation (s : CopilotState) :
    (handleSuggestReply s).1.conversation = s.conversation := by
  unfold handleSuggestReply
  split <;> rfl

theorem handleSuggestReplyResume_conversation (s : CopilotState)
    (o : FetchOutcome SuggestData) :
    (handleSuggestReplyResume s o).conversation = s.conversation := by
  unfold handleSuggestReplyResume
  cases o.data <;> rfl

theorem handleSummarizeResume_conversation (s : CopilotState)
    (o : FetchOutcome SummaryData) :
    (handleSummarizeResume s o).conversation = s.conversation := by
  unfold handleSummarizeResume
  cases o.data <;> rfl

theorem handleAddAgentReplyToConversation_conversation (s : CopilotState) :
    s.conversation <+: (handleAddAgentReplyToConversation s).conversation := by
  unfold handleAddAgentReplyToConversation
  split
  · exact ⟨[], List.append_nil _⟩
  · exact ⟨_, rfl⟩

theorem handleAddCustomerFollowup_conversation (s : CopilotState) :
    s.conversation <+: (handleAddCustomerFollowup s).conversation := by
  unfold handleAddCustomerFollowup
  split
  · exact ⟨[], List.append_nil _⟩
  · exact ⟨_, rfl⟩

/-- One event of the chatbot view keeps the messages it found. -/
theorem ChatSystem.step_messages (σ σ1 : ChatSystem) (e : ChatEvent)
    (h : σ.step e = some σ1) : σ.view.messages <+: σ1.view.messages := by
  cases e with
  | change value =>
    simp only [ChatSystem.step, Option.some.injEq] at h
    subst h
    exact ⟨[], List.append_nil _⟩
  | keyDown key shiftKey =>
    simp only [ChatSystem.step, Option.some.injEq] at h
    subst h
    simp only [ChatSystem.after, handleKeyDown]
    split
    · exact handleSend_messages _
    · exact ⟨[], List.append_nil _⟩
  | click =>
    simp only [ChatSystem.step, Option.some.injEq] at h
    subst h
    simp only [ChatSystem.after, clickSend]
    split
    · exact ⟨[], List.append_nil _⟩
    · exact handleSend_messages _
  | response call o =>
    simp only [ChatSystem.step] at h
    split at h
    · simp only [Option.some.injEq] at h
      subst h
      exact handleSendResume_messages _ _
    · exact Option.noConfusion h

/-- One event of the copilot view keeps the conversation it found. -/
theorem CopilotSystem.step_conversation (σ σ1 : CopilotSystem) (e : CopilotEvent)
    (h : σ.step e = some σ1) : σ.view.conversation <+: σ1.view.conversation := by
  cases e with
  | changeCustomerMessage value =>
    simp only [CopilotSystem.step, Option.some.injEq] at h
    subst h
    exact ⟨[], List.append_nil _⟩
  | changeTopicHint value =>
    simp only [CopilotSystem.step, Option.some.injEq] at h
    subst h
    exact ⟨[], List.append_nil _⟩
  | changeSuggestedReply value =>
    simp only [CopilotSystem.step, Option.some.injEq] at h
    subst h
    exact ⟨[], List.append_nil _⟩
  | addCustomerFollowup =>
    simp only [CopilotSystem.step, Option.some.injEq] at h
    subst h
    simp only [clickAddCustomerFollowup]
    split
    · exact ⟨[], List.append_nil _⟩
    · exact handleAddCustomerFollowup_conversation _
  | addAgentReply =>
    simp only [CopilotSystem.step, Option.some.injEq] at h
    subst h
    simp only [clickAddAgentReply]
    split
    · exact ⟨[], List.append_nil _⟩
    · exact handleAddAgentReplyToConversation_conversation _
  | suggestReply =>
    simp only [CopilotSystem.step, Option.some.injEq] at h
    subst h
    simp only [clickSuggestReply]
    split
    · exact ⟨[], List.append_nil _⟩
    · exact ⟨[], by simp [handleSuggestReply_conversation]⟩
  | summarize =>
    simp only [CopilotSystem.step, Option.some.injEq] at h
    subst h
    simp only [clickSummarize]
    split
    · exact ⟨[], List.append_nil _⟩
    · exact ⟨[], List.append_nil _⟩
  | suggestResponse call o =>
    simp only [CopilotSystem.step] at h
    split at h
    · simp only [Option.some.injEq] at h
      subst h
      exact ⟨[], by simp [handleSuggestReplyResume_conversation]⟩
    · exact Option.noConfusion h
  | summaryResponse call o =>
    simp only [CopilotSystem.step] at h
    split at h
    · simp only [Option.some.injEq] at h
      subst h
      exact ⟨[], by simp [handleSummarizeResume_conversation]⟩
    · exact Option.noConfusion h

/-- Appending one message through the interface. -/
theorem CopilotSystem.run_appendEvents (σ : CopilotSystem) (m : Message)
    (hm : trim m.content ≠ "") :
    ∃ σ1, σ.run (appendEvents m) = some σ1 ∧
      σ1.view.conversation = σ.view.conversation ++ [stored m] := by
  have hf : falsy (trim m.content) = false := (falsy_eq_false_iff _).mpr hm
  obtain ⟨role, content⟩ := m
  cases role
  · refine ⟨_, rfl, ?_⟩
    simp [clickAddCustomerFollowup, addCustomerFollowupDisabled, handleAddCustomerFollowup,
      stored, hf]
  · refine ⟨_, rfl, ?_⟩
    simp [clickAddAgentReply, addAgentReplyDisabled, handleAddAgentReplyToConversation,
      stored, hf]

/-- A run over two lists of events is the run over the first followed by
the run over the second. -/
theorem CopilotSystem.run_append (σ : CopilotSystem) (es fs : List CopilotEvent) :
    σ.run (es ++ fs) = (σ.run es).bind (fun σ1 => σ1.run fs) := by
  induction es generalizing σ with
  | nil => rfl
  | cons e es ih =>
    simp only [List.cons_append, CopilotSystem.run]
    cases σ.step e with
    | none => rfl
    | some σ2 => simpa using ih σ2

/-- Claim C9. Every operation of either view leaves the conversation it
found as the front part of the conversation it returns: the trigger and
the continuation of `handleSend`, and in the copilot view
`handleSuggestReply`, `handleSummarize`, their continuations,
`handleAddAgentReplyToConversation` and `handleAddCustomerFollowup`. Hence
the same holds over every run of events of either view; and appending a
list of messages through the copilot interface yields the conversation
found at the start followed by those messages in order, each with its
role and its trimmed text. -/
theorem conversation_is_append_only :
    (∀ (s : ChatState) (o : FetchOutcome ChatData),
      s.messages <+: (handleSend s).1.messages ∧
      s.messages <+: (handleSendResume s o).messages) ∧
    (∀ (s : CopilotState) (o : FetchOutcome SuggestData) (p : FetchOutcome SummaryData),
      s.conversation <+: (handleSuggestReply s).1.conversation ∧
      s.conversation <+: (handleSuggestReplyResume s o).conversation ∧
      s.conversation <+: (handleSummarize s).1.conversation ∧
      s.conversation <+: (handleSummarizeResume s p).conversation ∧
      s.conversation <+: (handleAddAgentReplyToConversation s).conversation ∧
      s.conversation <+: (handleAddCustomerFollowup s).conversation) ∧
    (∀ (es : List ChatEvent) (σ σ1 : ChatSystem), σ.run es = some σ1 →
      σ.view.messages <+: σ1.view.messages) ∧
    (∀ (es : List CopilotEvent) (σ σ1 : CopilotSystem), σ.run es = some σ1 →
      σ.view.conversation <+: σ1.view.conversation) ∧
    (∀ (ms : List Message) (σ : CopilotSystem), (∀ m ∈ ms, trim m.content ≠ "") →
      ∃ σ1, σ.run (appendAll ms) = some σ1 ∧
        σ1.view.conversation = σ.view.conversation ++ ms.map stored) := by
  refine ⟨?_, ?_, ?_, ?_, ?_⟩
  · intro s o
    exact ⟨handleSend_messages s, handleSendResume_messages s o⟩
  · intro s o p
    refine ⟨⟨[], ?_⟩, ⟨[], ?_⟩, ⟨[], List.append_nil _⟩, ⟨[], ?_⟩,
      handleAddAgentReplyToConversation_conversation s,
      handleAddCustomerFollowup_conversation s⟩
    · simp [handleSuggestReply_conversation]
    · simp [handleSuggestReplyResume_conversation]
    · simp [handleSummarizeResume_conversation]
  · intro es
    induction es with
    | nil =>
      intro σ σ1 h
      simp only [ChatSystem.run, Option.some.injEq] at h
      subst h
      exact ⟨[], List.append_nil _⟩
    | cons e es ih =>
      intro σ σ1 h
      simp only [ChatSystem.run] at h
      cases hs : σ.step e with
      | none => simp [hs] at h
      | some σ2 =>
        simp only [hs, Option.some_bind] at h
        obtain ⟨t1, ht1⟩ := σ.step_messages σ2 e hs
        obtain ⟨t2, ht2⟩ := ih σ2 σ1 h
        exact ⟨t1 ++ t2, by rw [← List.append_assoc, ht1, ht2]⟩
  · intro es
    induction es with
    | nil =>
      intro σ σ1 h
      simp only [CopilotSystem.run, Option.some.injEq] at h
      subst h
      exact ⟨[], List.append_nil _⟩
    | cons e es ih =>
      intro σ σ1 h
      simp only [CopilotSystem.run] at h
      cases hs : σ.step e with
      | none => simp [hs] at h
      | some σ2 =>
        simp only [hs, Option.some_bind] at h
        obtain ⟨t1, ht1⟩ := σ.step_conversation σ2 e hs
        obtain ⟨t2, ht2⟩ := ih σ2 σ1 h
        exact ⟨t1 ++ t2, by rw [← List.append_assoc, ht1, ht2]⟩
  · intro ms
    induction ms with
    | nil =>
      intro σ _
      exact ⟨σ, rfl, by simp⟩
    | cons m ms ih =>
      intro σ hms
      obtain ⟨σ2, hrun2, hconv2⟩ :=
        σ.run_appendEvents m (hms m (List.mem_cons_self _ _))
      obtain ⟨σ1, hrun1, hconv1⟩ :=
        ih σ2 (fun x hx => hms x (List.mem_cons_of_mem _ hx))
      refine ⟨σ1, ?_, ?_⟩
      · simp only [appendAll, CopilotSystem.run_append, hrun2, Option.some_bind, hrun1]
      · rw [hconv1, hconv2]
        simp

/-- Claim C9 on the seeded copilot view: a customer follow-up and an
agent reply are appended in that order, with their text trimmed. -/
theorem conversation_is_append_only_witness :
    ∃ σ1, CopilotSystem.initial.run
        (appendAll [⟨.user, " Any news? "⟩, ⟨.assistant, "Checking now."⟩]) = some σ1 ∧
      σ1.view.conversation
        = defaultConversation ++ [⟨.user, "Any news?"⟩, ⟨.assistant, "Checking now."⟩] := by
  obtain ⟨σ1, h1, h2⟩ := conversation_is_append_only.2.2.2.2
    [⟨.user, " Any news? "⟩, ⟨.assistant, "Checking now."⟩] CopilotSystem.initial (by decide)
  exact ⟨σ1, h1, h2.trans (by decide)⟩

/-! ## Responses and the calls that produced them -/

/-- Claim C10. In every run of either view from its initial state, made
of triggers through the interface and of responses to calls in flight, a
response is applied only when its call is the most recent call of its
action, so that no newer trigger has issued a call since; that call is
then the only one in flight, and the response is applied by the
continuation of the handler. A response to a superseded call, one
numbered below the calls issued so far, is not applied and changes
nothing: a call cannot be superseded while it is pending, so such a call
has settled already. -/
theorem response_is_to_latest_call :
    (∀ (es : List ChatEvent) (σ σ1 : ChatSystem) (call : Nat) (o : FetchOutcome ChatData),
      ChatSystem.initial.run es = some σ → σ.step (.response call o) = some σ1 →
      call = σ.send.issued ∧ σ.send.inFlight = [call] ∧
      σ1.view = handleSendResume σ.view o) ∧
    (∀ (es : List CopilotEvent) (σ σ1 : CopilotSystem) (call : Nat)
      (o : FetchOutcome SuggestData),
      CopilotSystem.initial.run es = some σ → σ.step (.suggestResponse call o) = some σ1 →
      call = σ.suggest.issued ∧ σ.suggest.inFlight = [call] ∧
      σ1.view = handleSuggestReplyResume σ.view o) ∧
    (∀ (es : List CopilotEvent) (σ σ1 : CopilotSystem) (call : Nat)
      (o : FetchOutcome SummaryData),
      CopilotSystem.initial.run es = some σ → σ.step (.summaryResponse call o) = some σ1 →
      call = σ.summarize.issued ∧ σ.summarize.inFlight = [call] ∧
      σ1.view = handleSummarizeResume σ.view o) ∧
    (∀ (es : List ChatEvent) (σ : ChatSystem) (call : Nat) (o : FetchOutcome ChatData),
      ChatSystem.initial.run es = some σ → call < σ.send.issued →
      σ.step (.response call o) = none) ∧
    (∀ (es : List CopilotEvent) (σ : CopilotSystem) (call : Nat)
      (o : FetchOutcome SuggestData) (p : FetchOutcome SummaryData),
      CopilotSystem.initial.run es = some σ →
      (call < σ.suggest.issued → σ.step (.suggestResponse call o) = none) ∧
      (call < σ.summarize.issued → σ.step (.summaryResponse call p) = none)) := by
  have key : ∀ (c : Calls) (b : Bool) (call : Nat),
      (c.inFlight = if b then [c.issued] else []) → call ∈ c.inFlight →
      call = c.issued ∧ c.inFlight = [call] := by
    intro c b call hc hmem
    cases b
    · simp only [Bool.false_eq_true, if_false] at hc
      simp [hc] at hmem
    · simp only [if_true] at hc
      rw [hc] at hmem
      have hcall : call = c.issued := by simpa using hmem
      exact ⟨hcall, by rw [hc, hcall]⟩
  have old : ∀ (c : Calls) (b : Bool) (call : Nat),
      (c.inFlight = if b then [c.issued] else []) → call < c.issued → call ∉ c.inFlight := by
    intro c b call hc hlt hmem
    have := (key c b call hc hmem).1
    omega
  refine ⟨?_, ?_, ?_, ?_, ?_⟩
  · intro es σ σ1 call o hrun hstep
    have hc := ChatSystem.chat_run_consistent es _ σ ChatSystem.chat_initial_consistent hrun
    simp only [ChatSystem.step] at hstep
    split at hstep
    · rename_i hmem
      simp only [Option.some.injEq] at hstep
      subst hstep
      obtain ⟨h1, h2⟩ := key _ _ call hc hmem
      exact ⟨h1, h2, rfl⟩
    · exact Option.noConfusion hstep
  · intro es σ σ1 call o hrun hstep
    have hc := CopilotSystem.copilot_run_consistent es _ σ
      CopilotSystem.copilot_initial_consistent hrun
    simp only [CopilotSystem.step] at hstep
    split at hstep
    · rename_i hmem
      simp only [Option.some.injEq] at hstep
      subst hstep
      obtain ⟨h1, h2⟩ := key _ _ call hc.1 hmem
      exact ⟨h1, h2, rfl⟩
    · exact Option.noConfusion hstep
  · intro es σ σ1 call o hrun hstep
    have hc := CopilotSystem.copilot_run_consistent es _ σ
      CopilotSystem.copilot_initial_consistent hrun
    simp only [CopilotSystem.step] at hstep
    split at hstep
    · rename_i hmem
      simp only [Option.some.injEq] at hstep
      subst hstep
      obtain ⟨h1, h2⟩ := key _ _ call hc.2 hmem
      exact ⟨h1, h2, rfl⟩
    · exact Option.noConfusion hstep
  · intro es σ call o hrun hlt
    have hc := ChatSystem.chat_run_consistent es _ σ ChatSystem.chat_initial_consistent hrun
    simp only [ChatSystem.step]
    exact if_neg (old _ _ call hc hlt)
  · intro es σ call o p hrun
    have hc := CopilotSystem.copilot_run_consistent es _ σ
      CopilotSystem.copilot_initial_consistent hrun
    constructor
    · intro hlt
      simp only [CopilotSystem.step]
      exact if_neg (old _ _ call hc.1 hlt)
    · intro hlt
      simp only [CopilotSystem.step]
      exact if_neg (old _ _ call hc.2 hlt)

/-- Claim C10 on two runs in which a response does arrive: in the chatbot
view after "Hello" was sent, and in the copilot view after a burst of
clicks on both buttons; and after a second question was sent, a further
response to call 1 is not applied. -/
theorem response_is_to_latest_call_witness :
    (ChatSystem.initial.run [.change "Hello", .click] = some helloSent ∧
      helloSent.step (.response 1 (.response 200 (.value ⟨some "Hi there"⟩)))
        = some helloAnswered ∧
      helloSent.send.issued = 1 ∧ helloSent.send.inFlight = [1]) ∧
    (CopilotSystem.initial.run copilotBurst = some burstSent ∧
      burstSent.step (.summaryResponse 1 (.response 200 (.value ⟨some "Late parcel", none⟩)))
        = some burstSummarized ∧
      burstSent.summarize.issued = 1 ∧ burstSent.summarize.inFlight = [1]) ∧
    (ChatSystem.initial.run twoQuestions = some thanksSent ∧ 1 < thanksSent.send.issued ∧
      thanksSent.step (.response 1 (.response 200 (.value ⟨some "Stale"⟩))) = none) :=
  ⟨⟨by decide, by decide,
    (response_is_to_latest_call.1 [.change "Hello", .click] helloSent helloAnswered 1
      (.response 200 (.value ⟨some "Hi there"⟩)) (by decide) (by decide)).1.symm,
    (response_is_to_latest_call.1 [.change "Hello", .click] helloSent helloAnswered 1
      (.response 200 (.value ⟨some "Hi there"⟩)) (by decide) (by decide)).2.1⟩,
   ⟨by decide, by decide,
    (response_is_to_latest_call.2.2.1 copilotBurst burstSent burstSummarized 1
      (.response 200 (.value ⟨some "Late parcel", none⟩)) (by decide) (by decide)).1.symm,
    (response_is_to_latest_call.2.2.1 copilotBurst burstSent burstSummarized 1
      (.response 200 (.value ⟨some "Late parcel", none⟩)) (by decide) (by decide)).2.1⟩,
   ⟨by decide, by decide,
    response_is_to_latest_call.2.2.2.1 twoQuestions thanksSent 1
      (.response 200 (.value ⟨some "Stale"⟩)) (by decide) (by decide)⟩⟩

end Studio
